import Mathlib

/-!
Verification of the cargo-panic-audit core analysis engine.

This file is a shallow embedding of the repository's core: the finding
data model (src/types.rs), the classification engine and false-positive
filter (src/rules.rs), the tree scanner with its scoped context flags and
line recovery (src/scanner.rs), the severity sort applied by the report
layer (src/report.rs), and the per-file scan loop (src/audit.rs).

Rust strings are modelled as Lean `String`; the Rust string operations
`to_lowercase`, `contains`, `chars().filter(..).take(n)` and `lines()`
are modelled by executable functions below (ASCII-faithful; all inputs
considered here are ASCII). The syn syntax tree is modelled by a small
inductive `Node` covering exactly the node kinds the scanner dispatches
on; the rendered source text of a node (produced externally by quote!)
is carried as data on the node. Parsing (syn::parse_file) is external
and is modelled as an oracle `String → Option Node` argument.
-/

namespace PanicAudit

/-! ## Finding model (src/types.rs) -/

/-- Severity levels, declared most-severe first exactly as in the Rust
enum; the derived Rust `Ord` compares by declaration order. -/
inductive Severity where
  | critical
  | high
  | medium
  | low
deriving DecidableEq

/-- Rank induced by the Rust `derive(Ord)`: position in declaration
order, so `critical` is smallest and sorts first ascending. -/
def Severity.rank : Severity → Nat
  | .critical => 0
  | .high => 1
  | .medium => 2
  | .low => 3

/-- Panic classes of src/types.rs (closed tag set). -/
inductive PanicClass where
  | assumptionPanic
  | implicitPanic
  | panicAmplification
  | cloudflareClass
  | assertionFailure
  | allocationPanic
  | ffiBoundary
  | processKilling
deriving DecidableEq

/-- A finding, mirroring struct Vulnerability of src/types.rs. -/
structure Vulnerability where
  file : String
  line : String
  severity : Severity
  panicClass : PanicClass
  pattern : String
  code : String
deriving DecidableEq

/-- Constructor mirroring Vulnerability::new of src/types.rs. -/
def Vulnerability.new (file line : String) (severity : Severity)
    (panicClass : PanicClass) (pattern code : String) : Vulnerability :=
  ⟨file, line, severity, panicClass, pattern, code⟩

/-! ## String operations modelling Rust's str methods -/

/-- Boolean test that the first list is a leading segment of the second
(helper for substring containment). -/
def leadsList : List Char → List Char → Bool
  | [], _ => true
  | _ :: _, [] => false
  | a :: as, b :: bs => a == b && leadsList as bs

/-- Substring containment on character lists: models Rust
`haystack.contains(needle)`. -/
def listContainsSub : List Char → List Char → Bool
  | [], sub => sub.isEmpty
  | c :: t, sub => leadsList sub (c :: t) || listContainsSub t sub

/-- Models Rust `hay.contains(sub)` on `String`. -/
def strContains (hay sub : String) : Bool :=
  listContainsSub hay.data sub.data

/-- Models Rust `s.to_lowercase()` (ASCII range). -/
def strLower (s : String) : String :=
  ⟨s.data.map Char.toLower⟩

/-- Models Rust `s.chars().take(n).collect::<String>()`. -/
def strTake (s : String) (n : Nat) : String :=
  ⟨s.data.take n⟩

/-- Models Rust `chars().filter(|c| !c.is_whitespace())` on a line. -/
def stripWs (l : List Char) : List Char :=
  l.filter (fun c => !c.isWhitespace)

/-- Worker for `rustLines`: accumulates the current line (reversed);
at a newline the piece is emitted with a single carriage return that
directly precedes the newline stripped, exactly as Rust `str::lines`;
a final unterminated piece is emitted as-is, and a trailing terminator
produces no extra empty line. -/
def linesGo : List Char → List Char → List (List Char)
  | acc, [] => if acc.isEmpty then [] else [acc.reverse]
  | acc, c :: rest =>
    if c = '\n' then
      (match acc with
       | '\r' :: acc2 => acc2.reverse
       | _ => acc.reverse) :: linesGo [] rest
    else linesGo (c :: acc) rest

/-- Models Rust `source.lines()` as a list of character lists. -/
def rustLines (s : String) : List (List Char) :=
  linesGo [] s.data

/-! ## Classifier and rule catalog (src/rules.rs) -/

/-- Embeds is_cloudflare_class of src/rules.rs: the (already lowercased)
text contains a file-read operation and a config-file indicator. -/
def is_cloudflare_class (code : String) : Bool :=
  let has_file_op := strContains code "file::open" ||
                     strContains code "read_to_string" ||
                     strContains code "fs::read"
  let config_keywords : List String :=
    [".toml", ".yaml", ".json", ".ini", ".conf", "config", "settings", "feature"]
  let has_config := config_keywords.any (fun kw => strContains code kw)
  has_file_op && has_config

/-- Embeds classify_panic of src/rules.rs: the ordered first-match-wins
rule chain over the lowercased call-site text. -/
def classify_panic (code : String) : Severity × PanicClass × String :=
  let lower := strLower code
  if is_cloudflare_class lower = true then
    (Severity.critical, PanicClass.cloudflareClass,
     "Config/Feature File Loading (Cloudflare Pattern)")
  else if (strContains lower "file::open" = true ∨
           strContains lower "file::create" = true ∨
           strContains lower "fs::read" = true ∨
           strContains lower "fs::write" = true ∨
           strContains lower "read_to_string" = true) ∧
          (strContains lower "unwrap" = true ∨ strContains lower "expect" = true) then
    (Severity.critical, PanicClass.assumptionPanic, "File I/O Operation")
  else if (strContains lower "tcpstream::connect" = true ∨
           strContains lower "tcplistener::bind" = true ∨
           strContains lower "udpsocket::bind" = true) ∧
          (strContains lower "unwrap" = true ∨ strContains lower "expect" = true) then
    (Severity.critical, PanicClass.assumptionPanic, "Network Socket Operation")
  else if (strContains lower "reqwest" = true ∨ strContains lower "hyper" = true) ∧
          strContains lower ".send(" = true then
    (Severity.critical, PanicClass.assumptionPanic, "HTTP Request")
  else if strContains lower "with_capacity" = true ∨ strContains lower "reserve" = true then
    (Severity.high, PanicClass.allocationPanic, "Allocation with Potential Untrusted Size")
  else if strContains lower "str::parse" = true ∨
          strContains lower ".parse::<" = true ∨
          strContains lower "from_str(" = true ∨
          strContains lower "serde_json::from" = true ∨
          strContains lower "toml::from" = true ∨
          strContains lower "yaml::from" = true then
    (Severity.high, PanicClass.assumptionPanic, "Parsing Operation")
  else if (strContains lower "query(" = true ∨
           strContains lower "execute(" = true ∨
           strContains lower "fetch" = true) ∧
          (strContains lower "diesel" = true ∨
           strContains lower "sqlx" = true ∨
           strContains lower "postgres" = true) then
    (Severity.high, PanicClass.assumptionPanic, "Database Operation")
  else if strContains lower "env::var" = true then
    (Severity.medium, PanicClass.assumptionPanic, "Environment Variable")
  else
    (Severity.low, PanicClass.assumptionPanic, "General Unwrap")

/-- Embeds is_false_positive of src/rules.rs. -/
def is_false_positive (code : String) : Bool :=
  let lower := strLower code
  if strContains lower "arc::try_unwrap" = true ∨
     strContains lower "rc::try_unwrap" = true then
    true
  else if (strContains lower "self.inner" = true ∨ strContains lower ".inner()" = true) ∧
          (strContains lower "file" = false ∧ strContains lower "read" = false ∧
           strContains lower "load" = false) then
    true
  else
    false

/-! ## Tree scanner (src/scanner.rs) -/

/-- Scanner state of src/scanner.rs. The dead fields `crate_name` and
`in_unsafe_block` (marked dead_code in the source, read nowhere) are
omitted; `inAbiFn` models the Rust field `in_ext` + `ern_fn`, the flag
for a function declared with a named foreign-ABI string. -/
structure Scanner where
  currentFile : String
  currentSource : String
  inTestCode : Bool
  inAbiFn : Bool
  vulnerabilities : List Vulnerability
deriving DecidableEq

/-- Loop of find_line_in_source: walk the source lines with a 0-based
counter, returning the 1-based number of the first line whose
whitespace-stripped content contains the normalized snippet, or the
default 1 when no line matches. -/
def findLineAux (pre : List Char) : List (List Char) → Nat → Nat
  | [], _ => 1
  | line :: rest, k =>
    if listContainsSub (stripWs line) pre = true then k + 1
    else findLineAux pre rest (k + 1)

/-- Embeds Scanner::find_line_in_source of src/scanner.rs, taking the
stored source text explicitly. -/
def find_line_in_source (source snippet : String) : Nat :=
  let normalizedSnippet := (stripWs snippet.data).take 40
  if normalizedSnippet.isEmpty then 1
  else findLineAux normalizedSnippet (rustLines source) 0

/-- Embeds Scanner::check_assumption_panic of src/scanner.rs (the unused
`_method` parameter is dropped). -/
def check_assumption_panic (s : Scanner) (code : String) (line : Nat) : Scanner :=
  if is_false_positive code = true then s
  else
    let c := classify_panic code
    { s with vulnerabilities := s.vulnerabilities ++
        [Vulnerability.new s.currentFile (Nat.repr line) c.1 c.2.1 c.2.2
          (strTake code 120)] }

/-- Embeds Scanner::check_panic_amplification of src/scanner.rs. -/
def check_panic_amplification (s : Scanner) (code : String) (line : Nat) : Scanner :=
  let lower := strLower code
  if (strContains lower "mutex" = true ∨ strContains lower "rwlock" = true) ∧
     (strContains lower "lock(" = true ∨ strContains lower "read(" = true ∨
      strContains lower "write(" = true) then
    { s with vulnerabilities := s.vulnerabilities ++
        [Vulnerability.new s.currentFile (Nat.repr line) Severity.critical
          PanicClass.panicAmplification "Mutex/RwLock unwrap (panic amplification)"
          (strTake code 120)] }
  else s

/-- Syntax-tree fragment covering exactly the node kinds the scanner
dispatches on (fn items, method calls, index expressions and bang
invocations), plus `seq`/`nilNode` to model ordered traversal of the
remaining child nodes that syn's default visitor recurses into. Each
expression node carries its rendered source text (produced externally
by the quote! pretty-printer in the Rust code). On `fnItem`,
`attrs` is the list of simple-path attribute names and `hasAbiName`
says whether the signature has a foreign ABI with an explicit name. -/
inductive Node where
  | fnItem (attrs : List String) (hasAbiName : Bool) (body : Node)
  | methodCall (method text : String) (children : Node)
  | indexExpr (text : String) (children : Node)
  | macCall (name text : String)
  | seq (a b : Node)
  | nilNode
deriving DecidableEq

/-- Embeds the Visit impl of src/scanner.rs: a pre-order traversal with
save/restore of the two context flags on fn items, the test-context and
tests-path gate on every detection, and the per-kind detection logic. -/
def visitNode (s : Scanner) : Node → Scanner
  | Node.fnItem attrs hasAbiName body =>
    let wasTest := s.inTestCode
    let wasAbi := s.inAbiFn
    let isTest := attrs.any (fun a => a == "test" || a == "bench")
    let s1 := { s with inTestCode := isTest }
    let s2 := if hasAbiName then { s1 with inAbiFn := true } else s1
    let s3 := visitNode s2 body
    { s3 with inTestCode := wasTest, inAbiFn := wasAbi }
  | Node.methodCall method text children =>
    let s1 :=
      if s.inTestCode = false ∧ strContains s.currentFile "/tests/" = false then
        let line := find_line_in_source s.currentSource text
        let s1 :=
          if method = "unwrap" ∨ method = "expect" ∨ method = "unwrap_unchecked" then
            check_assumption_panic s text line
          else s
        if method = "unwrap" ∨ method = "expect" then
          check_panic_amplification s1 text line
        else s1
      else s
    visitNode s1 children
  | Node.indexExpr text children =>
    let s1 :=
      if s.inTestCode = false ∧ strContains s.currentFile "/tests/" = false then
        { s with vulnerabilities := s.vulnerabilities ++
            [Vulnerability.new s.currentFile
              (Nat.repr (find_line_in_source s.currentSource text))
              Severity.medium PanicClass.implicitPanic "Array/Slice Indexing"
              (strTake text 120)] }
      else s
    visitNode s1 children
  | Node.macCall name text =>
    if s.inTestCode = false ∧ strContains s.currentFile "/tests/" = false then
      let line := find_line_in_source s.currentSource text
      if name = "todo" ∨ name = "unimplemented" then
        { s with vulnerabilities := s.vulnerabilities ++
            [Vulnerability.new s.currentFile (Nat.repr line) Severity.critical
              PanicClass.implicitPanic (name ++ "!()") (strTake text 120)] }
      else if name = "assert" ∨ name = "assert_eq" ∨ name = "assert_ne" ∨
              name = "debug_assert" then
        { s with vulnerabilities := s.vulnerabilities ++
            [Vulnerability.new s.currentFile (Nat.repr line) Severity.medium
              PanicClass.assertionFailure (name ++ "!()") (strTake text 120)] }
      else if name = "exit" ∧ strContains text "std::process" = true then
        { s with vulnerabilities := s.vulnerabilities ++
            [Vulnerability.new s.currentFile (Nat.repr line) Severity.critical
              PanicClass.processKilling "process::exit()" (strTake text 120)] }
      else s
    else s
  | Node.seq a b => visitNode (visitNode s a) b
  | Node.nilNode => s

/-! ## Severity sort applied by the report layer (src/report.rs) -/

/-- Comparator used by print_report's sort_by: ascending in the derived
severity order, so Critical sorts first. -/
def vulnLe (a b : Vulnerability) : Prop :=
  a.severity.rank ≤ b.severity.rank

instance : DecidableRel vulnLe := fun a b => Nat.decLe a.severity.rank b.severity.rank

instance : IsTotal Vulnerability vulnLe :=
  ⟨fun a b => Nat.le_total a.severity.rank b.severity.rank⟩

instance : IsTrans Vulnerability vulnLe :=
  ⟨fun _ _ _ h1 h2 => Nat.le_trans h1 h2⟩

/-- Models the stable ascending sort `vulnerabilities.sort_by(severity
cmp)` performed in print_report of src/report.rs. -/
def sortFindings (l : List Vulnerability) : List Vulnerability :=
  List.insertionSort vulnLe l

/-! ## Per-file scan loop (src/audit.rs) -/

/-- One input file: relative path and full UTF-8 text, as produced by
the out-of-scope directory walker. -/
structure SourceFile where
  path : String
  text : String

/-- One iteration of scan_directory's loop: record the file path and
source text on the scanner, then visit the parsed tree when the text
parses, and do nothing more when it does not. The external syn parser
is modelled as the oracle `parse`. -/
def scanFile (parse : String → Option Node) (s : Scanner) (f : SourceFile) :
    Scanner :=
  let s1 := { s with currentFile := f.path, currentSource := f.text }
  match parse f.text with
  | some tree => visitNode s1 tree
  | none => s1

/-- The fold of scan_directory over the enumerated files. -/
def scanFiles (parse : String → Option Node) (s : Scanner) :
    List SourceFile → Scanner
  | [] => s
  | f :: rest => scanFiles parse (scanFile parse s f) rest

/-- Embeds scan_directory of src/audit.rs: a fresh scanner folded over
the file list, returning the accumulated findings. -/
def scan_directory (parse : String → Option Node) (files : List SourceFile) :
    List Vulnerability :=
  (scanFiles parse ⟨"", "", false, false, []⟩ files).vulnerabilities

/-- Oracle for a parser that rejects every file text. -/
def parseNone : String → Option Node := fun _ => none

/-! ## Helper lemmas -/

/-- The empty needle is contained in every haystack, as with Rust's
str::contains. -/
theorem listContainsSub_nil (hay : List Char) : listContainsSub hay [] = true := by
  cases hay with
  | nil => rfl
  | cons c t => simp [listContainsSub, leadsList]

/-- findLineAux returns the default 1 when no line matches. -/
theorem findLineAux_no_match (pre : List Char) :
    ∀ (ls : List (List Char)) (k : Nat),
      (∀ l ∈ ls, listContainsSub (stripWs l) pre = false) →
      findLineAux pre ls k = 1 := by
  intro ls
  induction ls with
  | nil => intro k _; rfl
  | cons l rest ih =>
    intro k h
    have hl := h l (List.mem_cons_self l rest)
    simp only [findLineAux]
    rw [if_neg (by simp [hl])]
    exact ih (k + 1) (fun x hx => h x (List.mem_cons_of_mem l hx))

/-- findLineAux returns the 1-based position of the first matching
line, offset by the running counter. -/
theorem findLineAux_first_match (pre : List Char) :
    ∀ (pfx : List (List Char)) (l : List Char) (sfx : List (List Char)) (k : Nat),
      listContainsSub (stripWs l) pre = true →
      (∀ x ∈ pfx, listContainsSub (stripWs x) pre = false) →
      findLineAux pre (pfx ++ l :: sfx) k = k + pfx.length + 1 := by
  intro pfx
  induction pfx with
  | nil =>
    intro l sfx k hl _
    simp only [List.nil_append, findLineAux]
    rw [if_pos hl]
    simp
  | cons x rest ih =>
    intro l sfx k hl hp
    have hx := hp x (List.mem_cons_self x rest)
    simp only [List.cons_append, findLineAux]
    rw [if_neg (by simp [hx])]
    show findLineAux pre (rest ++ l :: sfx) (k + 1) = k + (x :: rest).length + 1
    rw [ih l sfx (k + 1) hl (fun y hy => hp y (List.mem_cons_of_mem x hy))]
    simp
    omega

/-- check_assumption_panic only ever appends to the findings list. -/
theorem check_assumption_panic_mono (s : Scanner) (code : String) (line : Nat) :
    ∃ t, (check_assumption_panic s code line).vulnerabilities =
      s.vulnerabilities ++ t := by
  unfold check_assumption_panic
  split
  · exact ⟨[], (List.append_nil _).symm⟩
  · exact ⟨_, rfl⟩

/-- Zeta-reduced equation for check_panic_amplification. -/
theorem check_panic_amplification_eq (s : Scanner) (code : String) (line : Nat) :
    check_panic_amplification s code line =
      if (strContains (strLower code) "mutex" = true ∨
          strContains (strLower code) "rwlock" = true) ∧
         (strContains (strLower code) "lock(" = true ∨
          strContains (strLower code) "read(" = true ∨
          strContains (strLower code) "write(" = true) then
        { s with vulnerabilities := s.vulnerabilities ++
            [Vulnerability.new s.currentFile (Nat.repr line) Severity.critical
              PanicClass.panicAmplification "Mutex/RwLock unwrap (panic amplification)"
              (strTake code 120)] }
      else s := rfl

/-- check_panic_amplification only ever appends to the findings list. -/
theorem check_panic_amplification_mono (s : Scanner) (code : String) (line : Nat) :
    ∃ t, (check_panic_amplification s code line).vulnerabilities =
      s.vulnerabilities ++ t := by
  rw [check_panic_amplification_eq]
  split
  · exact ⟨_, rfl⟩
  · exact ⟨[], (List.append_nil _).symm⟩

/-- The visit of any node only ever appends to the findings list. -/
theorem visitNode_vulns_mono (n : Node) : ∀ s : Scanner,
    ∃ t, (visitNode s n).vulnerabilities = s.vulnerabilities ++ t := by
  induction n with
  | fnItem attrs hasAbiName body ih =>
    intro s
    simp only [visitNode]
    cases hasAbiName with
    | false =>
      obtain ⟨t, ht⟩ := ih
        { s with inTestCode := attrs.any (fun a => a == "test" || a == "bench") }
      exact ⟨t, ht⟩
    | true =>
      obtain ⟨t, ht⟩ := ih
        { s with inTestCode := attrs.any (fun a => a == "test" || a == "bench"),
                 inAbiFn := true }
      exact ⟨t, ht⟩
  | methodCall method text children ih =>
    intro s
    simp only [visitNode]
    split
    · split
      · split
        · obtain ⟨t1, ht1⟩ := check_assumption_panic_mono s text
            (find_line_in_source s.currentSource text)
          obtain ⟨t2, ht2⟩ := check_panic_amplification_mono
            (check_assumption_panic s text (find_line_in_source s.currentSource text))
            text (find_line_in_source s.currentSource text)
          obtain ⟨t3, ht3⟩ := ih (check_panic_amplification
            (check_assumption_panic s text (find_line_in_source s.currentSource text))
            text (find_line_in_source s.currentSource text))
          exact ⟨t1 ++ t2 ++ t3, by simp [ht3, ht2, ht1]⟩
        · obtain ⟨t2, ht2⟩ := check_panic_amplification_mono s text
            (find_line_in_source s.currentSource text)
          obtain ⟨t3, ht3⟩ := ih
            (check_panic_amplification s text (find_line_in_source s.currentSource text))
          exact ⟨t2 ++ t3, by simp [ht3, ht2]⟩
      · split
        · obtain ⟨t1, ht1⟩ := check_assumption_panic_mono s text
            (find_line_in_source s.currentSource text)
          obtain ⟨t3, ht3⟩ := ih
            (check_assumption_panic s text (find_line_in_source s.currentSource text))
          exact ⟨t1 ++ t3, by simp [ht3, ht1]⟩
        · exact ih s
    · exact ih s
  | indexExpr text children ih =>
    intro s
    simp only [visitNode]
    split
    · obtain ⟨t, ht⟩ := ih { s with vulnerabilities := s.vulnerabilities ++
        [Vulnerability.new s.currentFile
          (Nat.repr (find_line_in_source s.currentSource text)) Severity.medium
          PanicClass.implicitPanic "Array/Slice Indexing" (strTake text 120)] }
      refine ⟨[Vulnerability.new s.currentFile
          (Nat.repr (find_line_in_source s.currentSource text)) Severity.medium
          PanicClass.implicitPanic "Array/Slice Indexing" (strTake text 120)] ++ t, ?_⟩
      rw [ht]
      simp
    · exact ih s
  | macCall name text =>
    intro s
    simp only [visitNode]
    split
    · split
      · exact ⟨_, rfl⟩
      · split
        · exact ⟨_, rfl⟩
        · split
          · exact ⟨_, rfl⟩
          · exact ⟨[], (List.append_nil _).symm⟩
    · exact ⟨[], (List.append_nil _).symm⟩
  | seq a b iha ihb =>
    intro s
    simp only [visitNode]
    obtain ⟨t1, ht1⟩ := iha s
    obtain ⟨t2, ht2⟩ := ihb (visitNode s a)
    exact ⟨t1 ++ t2, by simp [ht2, ht1]⟩
  | nilNode =>
    intro s
    exact ⟨[], (List.append_nil _).symm⟩

/-- A finding present before a visit is still present afterwards. -/
theorem visitNode_vulns_subset (n : Node) (s : Scanner) (v : Vulnerability)
    (hv : v ∈ s.vulnerabilities) : v ∈ (visitNode s n).vulnerabilities := by
  obtain ⟨t, ht⟩ := visitNode_vulns_mono n s
  rw [ht]
  exact List.mem_append_left _ hv

/-- When its mutex/rwlock and lock-acquisition conditions hold,
check_panic_amplification appends exactly the Critical
PanicAmplification finding; no false-positive filter is consulted. -/
theorem check_panic_amplification_appends (s : Scanner) (code : String) (line : Nat)
    (h1 : strContains (strLower code) "mutex" = true ∨
          strContains (strLower code) "rwlock" = true)
    (h2 : strContains (strLower code) "lock(" = true ∨
          strContains (strLower code) "read(" = true ∨
          strContains (strLower code) "write(" = true) :
    (check_panic_amplification s code line).vulnerabilities = s.vulnerabilities ++
      [Vulnerability.new s.currentFile (Nat.repr line) Severity.critical
        PanicClass.panicAmplification "Mutex/RwLock unwrap (panic amplification)"
        (strTake code 120)] := by
  simp only [check_panic_amplification]
  rw [if_pos ⟨h1, h2⟩]

/-! ## Claim theorems -/

/-- C1: the classification rules are tried first-match-wins against the
lowercased call text (so classification is case-insensitive and the
Cloudflare-class rule has top priority), and the call text
std::fs::read_to_string(&quot;config.toml&quot;).unwrap() is classified
Critical / CloudflareClass, not the generic "File I/O Operation". -/
theorem classify_config_read_is_cloudflare :
    classify_panic "std::fs::read_to_string(\"config.toml\").unwrap()" =
      (Severity.critical, PanicClass.cloudflareClass,
       "Config/Feature File Loading (Cloudflare Pattern)") ∧
    (classify_panic "std::fs::read_to_string(\"config.toml\").unwrap()").2.2 ≠
      "File I/O Operation" ∧
    (∀ c1 c2 : String, strLower c1 = strLower c2 →
      classify_panic c1 = classify_panic c2) ∧
    (∀ code : String, is_cloudflare_class (strLower code) = true →
      classify_panic code = (Severity.critical, PanicClass.cloudflareClass,
        "Config/Feature File Loading (Cloudflare Pattern)")) := by
  refine ⟨by decide, by decide, ?_, ?_⟩
  · intro c1 c2 h
    simp only [classify_panic]
    rw [h]
  · intro code h
    simp only [classify_panic]
    rw [if_pos h]

/-- Witness for C1 at concrete inputs. -/
theorem classify_config_read_is_cloudflare_witness :
    classify_panic "X.UNWRAP()" = classify_panic "x.unwrap()" ∧
    classify_panic "FS::READ(\"a.toml\").unwrap()" =
      (Severity.critical, PanicClass.cloudflareClass,
       "Config/Feature File Loading (Cloudflare Pattern)") :=
  ⟨classify_config_read_is_cloudflare.2.2.1 "X.UNWRAP()" "x.unwrap()" (by decide),
   classify_config_read_is_cloudflare.2.2.2 "FS::READ(\"a.toml\").unwrap()" (by decide)⟩

/-- C2 counterexample: a non-test unwrap call whose text contains a
mutex-named receiver but no lock-acquisition call produces only the Low
General Unwrap finding and no Critical PanicAmplification finding; and
the same pattern with a genuine lock call inside a test-annotated
function produces zero findings, so the claim's "regardless of
surrounding context" also fails. -/
theorem mutex_name_alone_no_amplification :
    (visitNode ⟨"src/lib.rs", "", false, false, []⟩
        (Node.methodCall "unwrap" "mutex.unwrap()" Node.nilNode)).vulnerabilities =
      [Vulnerability.new "src/lib.rs" "1" Severity.low PanicClass.assumptionPanic
        "General Unwrap" "mutex.unwrap()"] ∧
    (visitNode ⟨"src/lib.rs", "", false, false, []⟩
        (Node.fnItem ["test"] false
          (Node.methodCall "unwrap" "state.mutex.lock().unwrap()"
            Node.nilNode))).vulnerabilities = [] := by
  decide

/-- C2 amended: an unwrap/expect method call visited outside test
context whose text contains a mutex/rwlock identifier and one of the
lock-acquisition substrings lock(, read( or write( always yields a
Critical PanicAmplification finding; the false-positive filter is
never consulted on this path (no filter hypothesis is needed, and the
witness text is itself a false positive). -/
theorem amplification_requires_lock_call (s : Scanner) (method text : String)
    (children : Node)
    (hTest : s.inTestCode = false)
    (hFile : strContains s.currentFile "/tests/" = false)
    (hm : method = "unwrap" ∨ method = "expect")
    (h1 : strContains (strLower text) "mutex" = true ∨
          strContains (strLower text) "rwlock" = true)
    (h2 : strContains (strLower text) "lock(" = true ∨
          strContains (strLower text) "read(" = true ∨
          strContains (strLower text) "write(" = true) :
    ∃ v ∈ (visitNode s (Node.methodCall method text children)).vulnerabilities,
      v.severity = Severity.critical ∧
      v.panicClass = PanicClass.panicAmplification ∧
      v.pattern = "Mutex/RwLock unwrap (panic amplification)" := by
  have hm3 : method = "unwrap" ∨ method = "expect" ∨ method = "unwrap_unchecked" :=
    hm.elim (fun h => Or.inl h) (fun h => Or.inr (Or.inl h))
  simp only [visitNode]
  rw [if_pos ⟨hTest, hFile⟩, if_pos hm3, if_pos hm]
  have happ := check_panic_amplification_appends
    (check_assumption_panic s text (find_line_in_source s.currentSource text))
    text (find_line_in_source s.currentSource text) h1 h2
  refine ⟨Vulnerability.new
      (check_assumption_panic s text (find_line_in_source s.currentSource text)).currentFile
      (Nat.repr (find_line_in_source s.currentSource text)) Severity.critical
      PanicClass.panicAmplification "Mutex/RwLock unwrap (panic amplification)"
      (strTake text 120), ?_, rfl, rfl, rfl⟩
  apply visitNode_vulns_subset
  rw [happ]
  simp

/-- Witness for the amended C2, on a call text that is also a false
positive for the assumption-panic filter, showing the amplification
finding is not suppressed. -/
theorem amplification_requires_lock_call_witness :
    ∃ v ∈ (visitNode ⟨"src/lib.rs", "", false, false, []⟩
        (Node.methodCall "unwrap" "self.inner.mutex.lock().unwrap()"
          Node.nilNode)).vulnerabilities,
      v.severity = Severity.critical ∧
      v.panicClass = PanicClass.panicAmplification ∧
      v.pattern = "Mutex/RwLock unwrap (panic amplification)" :=
  amplification_requires_lock_call ⟨"src/lib.rs", "", false, false, []⟩
    "unwrap" "self.inner.mutex.lock().unwrap()" Node.nilNode rfl (by decide)
    (Or.inl rfl) (Or.inl (by decide)) (Or.inl (by decide))

/-- C4: visiting a function item restores both context flags to their
values from immediately before the visit, at any nesting depth. -/
theorem fn_visit_restores_flags (s : Scanner) (attrs : List String)
    (hasAbiName : Bool) (body : Node) :
    (visitNode s (Node.fnItem attrs hasAbiName body)).inTestCode = s.inTestCode ∧
    (visitNode s (Node.fnItem attrs hasAbiName body)).inAbiFn = s.inAbiFn :=
  ⟨rfl, rfl⟩

/-- C6: an indexing expression visited outside test context (test flag
false, file path without a tests segment) appends exactly one Medium
ImplicitPanic finding labeled Array/Slice Indexing, with no classifier
lookup and no false-positive filter; the same expression inside a
test-annotated function yields zero findings. -/
theorem index_outside_test_exactly_one (s : Scanner) (text : String)
    (hTest : s.inTestCode = false)
    (hFile : strContains s.currentFile "/tests/" = false) :
    (visitNode s (Node.indexExpr text Node.nilNode)).vulnerabilities =
      s.vulnerabilities ++
        [Vulnerability.new s.currentFile
          (Nat.repr (find_line_in_source s.currentSource text)) Severity.medium
          PanicClass.implicitPanic "Array/Slice Indexing" (strTake text 120)] ∧
    (∀ (s2 : Scanner) (text2 : String),
      (visitNode s2 (Node.fnItem ["test"] false
        (Node.indexExpr text2 Node.nilNode))).vulnerabilities =
        s2.vulnerabilities) := by
  constructor
  · simp only [visitNode]
    rw [if_pos ⟨hTest, hFile⟩]
  · intro s2 text2
    simp [visitNode]

/-- Witness for C6 at a concrete scanner state and index expression. -/
theorem index_outside_test_exactly_one_witness :
    (visitNode ⟨"src/lib.rs", "", false, false, []⟩
      (Node.indexExpr "x[i]" Node.nilNode)).vulnerabilities =
      [Vulnerability.new "src/lib.rs" "1" Severity.medium PanicClass.implicitPanic
        "Array/Slice Indexing" "x[i]"] := by
  have h := (index_outside_test_exactly_one ⟨"src/lib.rs", "", false, false, []⟩
    "x[i]" rfl (by decide)).1
  rw [h]
  decide

/-- C7: macro dispatch is strictly by the final path segment name:
todo/unimplemented give one Critical ImplicitPanic finding labeled
name!(), the four assertion names give one Medium AssertionFailure
finding, exit gives one Critical ProcessKilling finding exactly when
the rendered text contains the qualified path fragment std::process,
any other name gives no finding, and a todo invocation inside a
test-annotated function gives zero findings. -/
theorem mac_dispatch_rules (s : Scanner) (name text : String)
    (hTest : s.inTestCode = false)
    (hFile : strContains s.currentFile "/tests/" = false) :
    ((name = "todo" ∨ name = "unimplemented") →
      (visitNode s (Node.macCall name text)).vulnerabilities = s.vulnerabilities ++
        [Vulnerability.new s.currentFile
          (Nat.repr (find_line_in_source s.currentSource text)) Severity.critical
          PanicClass.implicitPanic (name ++ "!()") (strTake text 120)]) ∧
    ((name = "assert" ∨ name = "assert_eq" ∨ name = "assert_ne" ∨
      name = "debug_assert") →
      (visitNode s (Node.macCall name text)).vulnerabilities = s.vulnerabilities ++
        [Vulnerability.new s.currentFile
          (Nat.repr (find_line_in_source s.currentSource text)) Severity.medium
          PanicClass.assertionFailure (name ++ "!()") (strTake text 120)]) ∧
    (name = "exit" → strContains text "std::process" = true →
      (visitNode s (Node.macCall name text)).vulnerabilities = s.vulnerabilities ++
        [Vulnerability.new s.currentFile
          (Nat.repr (find_line_in_source s.currentSource text)) Severity.critical
          PanicClass.processKilling "process::exit()" (strTake text 120)]) ∧
    (name = "exit" → strContains text "std::process" = false →
      (visitNode s (Node.macCall name text)).vulnerabilities = s.vulnerabilities) ∧
    (name ∉ ["todo", "unimplemented", "assert", "assert_eq", "assert_ne",
             "debug_assert", "exit"] →
      (visitNode s (Node.macCall name text)).vulnerabilities = s.vulnerabilities) ∧
    (∀ s2 : Scanner,
      (visitNode s2 (Node.fnItem ["test"] false
        (Node.macCall "todo" text))).vulnerabilities = s2.vulnerabilities) := by
  refine ⟨?_, ?_, ?_, ?_, ?_, ?_⟩
  · intro h
    simp only [visitNode]
    rw [if_pos ⟨hTest, hFile⟩, if_pos h]
  · rintro (rfl | rfl | rfl | rfl) <;>
      (simp only [visitNode];
       rw [if_pos ⟨hTest, hFile⟩, if_neg (by decide), if_pos (by decide)])
  · rintro rfl hstd
    simp only [visitNode]
    rw [if_pos ⟨hTest, hFile⟩, if_neg (by decide), if_neg (by decide),
        if_pos (by simp [hstd])]
  · rintro rfl hstd
    simp only [visitNode]
    rw [if_pos ⟨hTest, hFile⟩, if_neg (by decide), if_neg (by decide),
        if_neg (by simp [hstd])]
  · intro h
    simp only [List.mem_cons, List.not_mem_nil, or_false, not_or] at h
    obtain ⟨h1, h2, h3, h4, h5, h6, h7⟩ := h
    simp only [visitNode]
    rw [if_pos ⟨hTest, hFile⟩, if_neg (by tauto), if_neg (by tauto),
        if_neg (fun hc => h7 hc.1)]
  · intro s2
    simp [visitNode]

/-- Witness for C7: a todo invocation in a non-test context produces the
single Critical ImplicitPanic finding. -/
theorem mac_dispatch_rules_witness :
    (visitNode ⟨"src/a.rs", "", false, false, []⟩
      (Node.macCall "todo" "todo!()")).vulnerabilities =
      [Vulnerability.new "src/a.rs" "1" Severity.critical PanicClass.implicitPanic
        "todo!()" "todo!()"] := by
  have h := (mac_dispatch_rules ⟨"src/a.rs", "", false, false, []⟩ "todo" "todo!()"
    rfl (by decide)).1 (Or.inl rfl)
  rw [h]
  decide

/-- C10: entering a function item whose attributes carry no test or
bench marker sets the test flag to false rather than inheriting it, so
a panic construct in a plain helper function nested inside a
test-annotated function is still reported. -/
theorem plain_fn_resets_test_flag :
    (∀ (s : Scanner) (attrs : List String) (body : Node),
      attrs.any (fun a => a == "test" || a == "bench") = false →
      (visitNode s (Node.fnItem attrs false body)).vulnerabilities =
        (visitNode { s with inTestCode := false } body).vulnerabilities) ∧
    (∀ (s : Scanner) (text : String),
      strContains s.currentFile "/tests/" = false →
      (visitNode s (Node.fnItem ["test"] false
         (Node.fnItem [] false (Node.indexExpr text Node.nilNode)))).vulnerabilities =
        s.vulnerabilities ++
          [Vulnerability.new s.currentFile
            (Nat.repr (find_line_in_source s.currentSource text)) Severity.medium
            PanicClass.implicitPanic "Array/Slice Indexing" (strTake text 120)]) := by
  constructor
  · intro s attrs body h
    simp only [visitNode, h]
    rfl
  · intro s text h
    simp [visitNode, h]

/-- Witness for C10: an index expression inside a helper fn nested in a
test fn is still reported. -/
theorem plain_fn_resets_test_flag_witness :
    (visitNode ⟨"src/lib.rs", "", false, false, []⟩
      (Node.fnItem ["test"] false
        (Node.fnItem [] false (Node.indexExpr "x[i]" Node.nilNode)))).vulnerabilities =
      [Vulnerability.new "src/lib.rs" "1" Severity.medium PanicClass.implicitPanic
        "Array/Slice Indexing" "x[i]"] := by
  have h := plain_fn_resets_test_flag.2 ⟨"src/lib.rs", "", false, false, []⟩
    "x[i]" (by decide)
  rw [h]
  decide

/-- C5: line recovery returns the 1-based index of the first source
line whose whitespace-stripped content contains the first at-most-40
non-whitespace characters of the snippet as a substring; when the
stripped snippet is empty or no line matches it returns 1; ties
resolve to the first matching line in file order. -/
theorem find_line_in_source_correct (source snippet : String) :
    ((stripWs snippet.data).take 40 = [] →
      find_line_in_source source snippet = 1) ∧
    ((∀ l ∈ rustLines source,
        listContainsSub (stripWs l) ((stripWs snippet.data).take 40) = false) →
      find_line_in_source source snippet = 1) ∧
    (∀ (pfx : List (List Char)) (l : List Char) (sfx : List (List Char)),
      rustLines source = pfx ++ l :: sfx →
      listContainsSub (stripWs l) ((stripWs snippet.data).take 40) = true →
      (∀ x ∈ pfx,
        listContainsSub (stripWs x) ((stripWs snippet.data).take 40) = false) →
      find_line_in_source source snippet = pfx.length + 1) := by
  refine ⟨?_, ?_, ?_⟩
  · intro h
    simp only [find_line_in_source]
    rw [if_pos (by simp [h])]
  · intro h
    simp only [find_line_in_source]
    split
    · rfl
    · exact findLineAux_no_match _ _ 0 h
  · intro pfx l sfx hdec hl hp
    simp only [find_line_in_source]
    split
    · rename_i hempty
      have hpre : (stripWs snippet.data).take 40 = [] := by
        cases h40 : (stripWs snippet.data).take 40 with
        | nil => rfl
        | cons a as => rw [h40] at hempty; simp [List.isEmpty] at hempty
      cases pfx with
      | nil => simp
      | cons p ps =>
        have hcp := hp p (List.mem_cons_self p ps)
        rw [hpre, listContainsSub_nil] at hcp
        exact absurd hcp (by simp)
    · rw [hdec, findLineAux_first_match ((stripWs snippet.data).take 40)
        pfx l sfx 0 hl hp]
      omega

/-- Witness for C5: the snippet matches the second line of a two-line
source. -/
theorem find_line_in_source_correct_witness :
    find_line_in_source "ab\ncd" "c d" = 2 :=
  (find_line_in_source_correct "ab\ncd" "c d").2.2 [['a', 'b']] ['c', 'd'] []
    (by decide) (by decide) (by decide)

/-- C8: the false-positive filter fires exactly on the Arc/Rc
try_unwrap recovery idiom or an inner-accessor shape with none of the
words file, read, load present; the call Arc::try_unwrap(x).unwrap()
is suppressed entirely on the assumption-panic path; and the filter is
not consulted by the amplification check or the indexing visit, which
emit their findings even on filter-positive texts. -/
theorem false_positive_filter_exact :
    (∀ code : String, is_false_positive code = true ↔
      (strContains (strLower code) "arc::try_unwrap" = true ∨
       strContains (strLower code) "rc::try_unwrap" = true ∨
       ((strContains (strLower code) "self.inner" = true ∨
         strContains (strLower code) ".inner()" = true) ∧
        strContains (strLower code) "file" = false ∧
        strContains (strLower code) "read" = false ∧
        strContains (strLower code) "load" = false))) ∧
    (∀ (s : Scanner) (line : Nat),
      check_assumption_panic s "Arc::try_unwrap(x).unwrap()" line = s) ∧
    (∀ (s : Scanner) (text : String) (line : Nat),
      is_false_positive text = true →
      (strContains (strLower text) "mutex" = true ∨
       strContains (strLower text) "rwlock" = true) →
      (strContains (strLower text) "lock(" = true ∨
       strContains (strLower text) "read(" = true ∨
       strContains (strLower text) "write(" = true) →
      (check_panic_amplification s text line).vulnerabilities =
        s.vulnerabilities ++
          [Vulnerability.new s.currentFile (Nat.repr line) Severity.critical
            PanicClass.panicAmplification
            "Mutex/RwLock unwrap (panic amplification)" (strTake text 120)]) ∧
    (∀ (s : Scanner) (text : String),
      s.inTestCode = false → strContains s.currentFile "/tests/" = false →
      is_false_positive text = true →
      (visitNode s (Node.indexExpr text Node.nilNode)).vulnerabilities =
        s.vulnerabilities ++
          [Vulnerability.new s.currentFile
            (Nat.repr (find_line_in_source s.currentSource text)) Severity.medium
            PanicClass.implicitPanic "Array/Slice Indexing" (strTake text 120)]) := by
  refine ⟨?_, ?_, ?_, ?_⟩
  · intro code
    simp only [is_false_positive]
    split
    · rename_i hA
      simp only [true_iff]
      tauto
    · split
      · rename_i hA hB
        simp only [true_iff]
        tauto
      · rename_i hA hB
        exact iff_of_false (by simp) (by tauto)
  · intro s line
    unfold check_assumption_panic
    rw [if_pos (by decide)]
  · exact fun s text line _ h1 h2 =>
      check_panic_amplification_appends s text line h1 h2
  · intro s text hTest hFile _
    simp only [visitNode]
    rw [if_pos ⟨hTest, hFile⟩]

/-- Witness for C8 at the spec's concrete call text. -/
theorem false_positive_filter_exact_witness :
    is_false_positive "Arc::try_unwrap(x).unwrap()" = true ∧
    check_assumption_panic ⟨"src/lib.rs", "", false, false, []⟩
      "Arc::try_unwrap(x).unwrap()" 1 = ⟨"src/lib.rs", "", false, false, []⟩ :=
  ⟨(false_positive_filter_exact.1 "Arc::try_unwrap(x).unwrap()").mpr
      (Or.inl (by decide)),
   false_positive_filter_exact.2.1 ⟨"src/lib.rs", "", false, false, []⟩ 1⟩

/-- C3: sorting findings with the severity comparison places every
finding of a more severe (lower-ranked) severity before every finding
of a less severe one, Critical first. -/
theorem severity_sort_orders (l : List Vulnerability) (A B : Severity)
    (hAB : A.rank < B.rank)
    (hA : ∃ v ∈ l, v.severity = A) (hB : ∃ v ∈ l, v.severity = B)
    (i j : Fin (sortFindings l).length)
    (hi : ((sortFindings l).get i).severity = A)
    (hj : ((sortFindings l).get j).severity = B) :
    (i : Nat) < (j : Nat) := by
  by_contra hc
  push_neg at hc
  have hsorted : List.Sorted vulnLe (sortFindings l) :=
    List.sorted_insertionSort vulnLe l
  rcases Nat.eq_or_lt_of_le hc with heq | hlt
  · have hij : j = i := Fin.ext heq
    rw [hij, hi] at hj
    rw [hj] at hAB
    exact Nat.lt_irrefl _ hAB
  · have hrel := List.Sorted.rel_get_of_lt hsorted (show j < i from hlt)
    unfold vulnLe at hrel
    rw [hi, hj] at hrel
    omega

/-- Witness for C3: in the sorted two-element list the Critical finding
at index 0 precedes the Low finding at index 1. -/
theorem severity_sort_orders_witness : (0 : Nat) < 1 :=
  severity_sort_orders
    [Vulnerability.new "f" "1" Severity.low PanicClass.assumptionPanic "p" "c",
     Vulnerability.new "f" "2" Severity.critical PanicClass.implicitPanic "q" "d"]
    Severity.critical Severity.low (by decide)
    ⟨Vulnerability.new "f" "2" Severity.critical PanicClass.implicitPanic "q" "d",
      by decide, rfl⟩
    ⟨Vulnerability.new "f" "1" Severity.low PanicClass.assumptionPanic "p" "c",
      by decide, rfl⟩
    ⟨0, by decide⟩ ⟨1, by decide⟩ (by decide) (by decide)

/-- Scanner states agreeing on the context flags and the findings list
produce the same findings over any remaining files: the per-file fields
are overwritten at the start of each iteration. -/
theorem scanFiles_congr (parse : String → Option Node) :
    ∀ (files : List SourceFile) (s1 s2 : Scanner),
      s1.inTestCode = s2.inTestCode → s1.inAbiFn = s2.inAbiFn →
      s1.vulnerabilities = s2.vulnerabilities →
      (scanFiles parse s1 files).vulnerabilities =
        (scanFiles parse s2 files).vulnerabilities := by
  intro files
  induction files with
  | nil => intro s1 s2 _ _ h3; exact h3
  | cons f rest ih =>
    intro s1 s2 h1 h2 h3
    have hs : ({ s1 with currentFile := f.path, currentSource := f.text } : Scanner) =
        { s2 with currentFile := f.path, currentSource := f.text } := by
      cases s1; cases s2; simp_all
    have hfeq : scanFile parse s1 f = scanFile parse s2 f := by
      simp only [scanFile]
      rw [hs]
    simp only [scanFiles]
    rw [hfeq]

/-- C9: a file whose text fails to parse contributes zero findings and
the scan proceeds to the remaining files unchanged; the embedded scan
is a total function, so no input aborts it. -/
theorem scan_skips_unparseable (parse : String → Option Node)
    (f : SourceFile) (rest : List SourceFile)
    (h : parse f.text = none) :
    scan_directory parse (f :: rest) = scan_directory parse rest := by
  simp only [scan_directory, scanFiles]
  have hf : scanFile parse ⟨"", "", false, false, []⟩ f =
      ⟨f.path, f.text, false, false, []⟩ := by
    unfold scanFile
    rw [h]
  rw [hf]
  exact scanFiles_congr parse rest _ _ rfl rfl rfl

/-- Witness for C9: a rejected file contributes nothing to the scan. -/
theorem scan_skips_unparseable_witness :
    scan_directory parseNone [⟨"bad.rs", "this is not rust"⟩] =
      scan_directory parseNone [] :=
  scan_skips_unparseable parseNone ⟨"bad.rs", "this is not rust"⟩ [] rfl

end PanicAudit
